import Mathlib

/-!
Verification development for a multi-turn chat mediator: a bounded
per-session message store, a provider-agnostic dispatch layer, and a
best-effort PII redaction pipeline.

The definitions below are shallow embeddings of the Python sources:
  * `save_to_session`, `get_session_history`, `build_message_chain`, `chat`
    from `apps/api/services/llm_client.py`,
  * `chat_endpoint` from `apps/api/routers/inference.py`,
  * `mask` from `apps/api/utils/pii_masker.py`,
  * `Lab4.mask` (with the location false-positive filter) from
    `labs/templates/lab4/pii_masker.py`.
External capabilities (the LangChain backend call, the Presidio analyzer
and anonymizer) are parameters of the embedded functions; exceptions are
modelled with `Except`.
-/

/-- A stored session message: `{"role": ..., "content": ...}`. -/
structure Msg where
  role : String
  content : String
deriving DecidableEq, Repr

/-- The session store `SESSION_STORE`, viewed as a total map from session id
to history (`dict.get(session_id, [])` conflates an absent key with `[]`). -/
abbrev Store := String → List Msg

/-- The store at process start: no sessions. -/
def emptyStore : Store := fun _ => []

/-- `SESSION_STORE.get(session_id, [])`, as in `_get_session_history`. -/
def get_session_history (store : Store) (session_id : String) : List Msg :=
  store session_id

/-- Point update of the store (`SESSION_STORE[session_id] = hist`). -/
def setSession (store : Store) (session_id : String) (hist : List Msg) : Store :=
  fun s => if s = session_id then hist else store s

/-- `_save_to_session`: append one message, then keep only the last 20
(`SESSION_STORE[session_id][-20:]`) when the length exceeds 20. -/
def save_to_session (store : Store) (session_id role content : String) : Store :=
  let hist := store session_id ++ [⟨role, content⟩]
  setSession store session_id
    (if hist.length > 20 then hist.drop (hist.length - 20) else hist)

/-- The last `n` elements of a list (Python `l[-n:]`). -/
def lastN (n : Nat) (l : List α) : List α :=
  l.drop (l.length - n)

/-- A sequence of `_save_to_session` calls on one session. -/
def applyAppends (store : Store) (session_id : String)
    (msgs : List (String × String)) : Store :=
  msgs.foldl (fun st rc => save_to_session st session_id rc.1 rc.2) store

lemma lastN_length_le (n : Nat) (l : List α) : (lastN n l).length ≤ n := by
  rw [lastN, List.length_drop]
  omega

lemma lastN_of_length_le {n : Nat} {l : List α} (h : l.length ≤ n) :
    lastN n l = l := by
  rw [lastN, Nat.sub_eq_zero_of_le h, List.drop_zero]

lemma take_append_take (n : Nat) (as bs : List α) :
    (as ++ bs.take n).take n = (as ++ bs).take n := by
  rw [List.take_append_eq_append_take, List.take_append_eq_append_take,
    List.take_take, Nat.min_eq_left (Nat.sub_le n as.length)]

lemma lastN_append_lastN (n : Nat) (xs ys : List α) :
    lastN n (lastN n xs ++ ys) = lastN n (xs ++ ys) := by
  show List.rtake (List.rtake xs n ++ ys) n = List.rtake (xs ++ ys) n
  simp only [List.rtake_eq_reverse_take_reverse, List.reverse_append,
    List.reverse_reverse]
  rw [take_append_take]

lemma setSession_self (store : Store) (session_id : String) (hist : List Msg) :
    setSession store session_id hist session_id = hist := by
  simp [setSession]

lemma save_to_session_self (store : Store) (session_id role content : String) :
    save_to_session store session_id role content session_id
      = lastN 20 (store session_id ++ [Msg.mk role content]) := by
  simp only [save_to_session]
  rw [setSession_self]
  split
  · rfl
  · rename_i h
    rw [lastN_of_length_le (by omega)]

lemma save_to_session_other (store : Store) (session_id role content s : String)
    (h : s ≠ session_id) :
    save_to_session store session_id role content s = store s := by
  simp [save_to_session, setSession, h]

lemma applyAppends_self (session_id : String) :
    ∀ (msgs : List (String × String)) (store : Store) (init : List Msg),
      store session_id = lastN 20 init →
      applyAppends store session_id msgs session_id
        = lastN 20 (init ++ msgs.map (fun rc => (⟨rc.1, rc.2⟩ : Msg))) := by
  intro msgs
  induction msgs with
  | nil => intro store init h; simpa [applyAppends] using h
  | cons m ms ih =>
    intro store init h
    have hstep : save_to_session store session_id m.1 m.2 session_id
        = lastN 20 (init ++ [⟨m.1, m.2⟩]) := by
      rw [save_to_session_self, h, lastN_append_lastN]
    have hrec := ih _ _ hstep
    simpa [applyAppends, List.foldl_cons, List.append_assoc] using hrec

/-- **C1.** Starting from the empty store, any sequence of appends to a session
leaves exactly the most recent 20 appended messages, in append order; in
particular the stored history length never exceeds the capacity 20. -/
theorem session_capacity_fifo (session_id : String) (msgs : List (String × String)) :
    applyAppends emptyStore session_id msgs session_id
        = lastN 20 (msgs.map (fun rc => (⟨rc.1, rc.2⟩ : Msg)))
      ∧ (applyAppends emptyStore session_id msgs session_id).length ≤ 20 := by
  have h := applyAppends_self session_id msgs emptyStore []
    (by simp [emptyStore, lastN])
  simp only [List.nil_append] at h
  exact ⟨h, h ▸ lastN_length_le 20 _⟩

/-- A LangChain chain message: `SystemMessage`, `HumanMessage` or `AIMessage`. -/
inductive ChainMsg where
  | system (content : String)
  | human (content : String)
  | ai (content : String)
deriving DecidableEq, Repr

/-- `_build_message_chain`: system prompt, then the session history (each
`"user"` entry as a `HumanMessage`, each `"assistant"` entry as an
`AIMessage`, anything else skipped), then the new user message. -/
def build_message_chain (system_prompt : String) (store : Store)
    (session_id user_message : String) : List ChainMsg :=
  [ChainMsg.system system_prompt]
    ++ (get_session_history store session_id).filterMap (fun msg =>
        if msg.role = "user" then some (ChainMsg.human msg.content)
        else if msg.role = "assistant" then some (ChainMsg.ai msg.content)
        else none)
    ++ [ChainMsg.human user_message]

/-- A backend dispatch capability (`self.client.ainvoke`): takes the chain,
returns the reply text or raises, the exception carried as a `String`. -/
abbrev Backend := List ChainMsg → Except String String

/-- `LLMClient.chat`: build the chain, dispatch; on success save the user
message and then the reply to the session and return the reply; on failure
re-raise, leaving the store untouched. -/
def chat (backend : Backend) (system_prompt : String) (store : Store)
    (session_id user_message : String) : Store × Except String String :=
  match backend (build_message_chain system_prompt store session_id user_message) with
  | Except.ok reply =>
      (save_to_session
        (save_to_session store session_id "user" user_message)
        session_id "assistant" reply,
       Except.ok reply)
  | Except.error e => (store, Except.error e)

/-- **C2.** When every stored message has role `"user"` or `"assistant"` (as
is the case for histories produced by `chat`), the dispatched chain is exactly
one system message, then the session history in order with roles preserved,
then one user message carrying the current input as last element. -/
theorem chain_shape (system_prompt : String) (store : Store)
    (session_id user_message : String)
    (hroles : ∀ m ∈ get_session_history store session_id,
      m.role = "user" ∨ m.role = "assistant") :
    build_message_chain system_prompt store session_id user_message
      = ChainMsg.system system_prompt
          :: ((get_session_history store session_id).map (fun m =>
                if m.role = "user" then ChainMsg.human m.content
                else ChainMsg.ai m.content)
              ++ [ChainMsg.human user_message]) := by
  have hmap : ∀ l : List Msg, (∀ m ∈ l, m.role = "user" ∨ m.role = "assistant") →
      l.filterMap (fun msg =>
        if msg.role = "user" then some (ChainMsg.human msg.content)
        else if msg.role = "assistant" then some (ChainMsg.ai msg.content)
        else none)
      = l.map (fun m =>
          if m.role = "user" then ChainMsg.human m.content
          else ChainMsg.ai m.content) := by
    intro l hl
    induction l with
    | nil => rfl
    | cons a t ih =>
      have ha := hl a (List.mem_cons_self a t)
      have ht : ∀ m ∈ t, m.role = "user" ∨ m.role = "assistant" :=
        fun m hm => hl m (List.mem_cons_of_mem a hm)
      rcases ha with h | h
      · simp [List.filterMap_cons, h, ih ht]
      · have hne : a.role ≠ "user" := by rw [h]; decide
        simp [List.filterMap_cons, h, hne, ih ht]
  unfold build_message_chain
  rw [hmap _ hroles]
  simp

/-- Witness for C2 at a concrete two-message history. -/
theorem chain_shape_witness :
    build_message_chain "sys"
        (setSession emptyStore "s1" [⟨"user", "hi"⟩, ⟨"assistant", "hello"⟩])
        "s1" "who are you"
      = ChainMsg.system "sys"
          :: ((get_session_history
                (setSession emptyStore "s1" [⟨"user", "hi"⟩, ⟨"assistant", "hello"⟩])
                "s1").map (fun m =>
                if m.role = "user" then ChainMsg.human m.content
                else ChainMsg.ai m.content)
              ++ [ChainMsg.human "who are you"]) :=
  chain_shape "sys" _ "s1" "who are you" (by decide)

/-- **C3.** If the backend dispatch raises, `chat` propagates the failure and
the session store is exactly as before the call: no message is recorded. -/
theorem chat_failure_no_partial_record (backend : Backend) (system_prompt : String)
    (store : Store) (session_id user_message e : String)
    (h : backend (build_message_chain system_prompt store session_id user_message)
      = Except.error e) :
    chat backend system_prompt store session_id user_message
        = (store, Except.error e)
      ∧ ∀ s, get_session_history
          (chat backend system_prompt store session_id user_message).1 s
        = get_session_history store s := by
  have hc : chat backend system_prompt store session_id user_message
      = (store, Except.error e) := by
    unfold chat
    rw [h]
  exact ⟨hc, fun s => by rw [hc]⟩

/-- Witness for C3: a backend that always raises a connection error. -/
theorem chat_failure_no_partial_record_witness :
    chat (fun _ => Except.error "connection refused") "sys" emptyStore "s1" "hi"
        = (emptyStore, Except.error "connection refused")
      ∧ ∀ s, get_session_history
          (chat (fun _ => Except.error "connection refused") "sys" emptyStore "s1" "hi").1 s
        = get_session_history emptyStore s :=
  chat_failure_no_partial_record (fun _ => Except.error "connection refused")
    "sys" emptyStore "s1" "hi" "connection refused" rfl

/-- **C4.** If the backend dispatch succeeds, `chat` returns the reply and the
session history becomes the prior history extended by the user message and
then the reply (subject only to the capacity-20 truncation); with room to
spare it is exactly the prior history plus those two messages. -/
theorem chat_success_appends (backend : Backend) (system_prompt : String)
    (store : Store) (session_id user_message reply : String)
    (h : backend (build_message_chain system_prompt store session_id user_message)
      = Except.ok reply) :
    (chat backend system_prompt store session_id user_message).2 = Except.ok reply
      ∧ get_session_history
          (chat backend system_prompt store session_id user_message).1 session_id
        = lastN 20 (get_session_history store session_id
            ++ [⟨"user", user_message⟩, ⟨"assistant", reply⟩])
      ∧ ((get_session_history store session_id).length ≤ 18 →
          get_session_history
            (chat backend system_prompt store session_id user_message).1 session_id
          = get_session_history store session_id
              ++ [⟨"user", user_message⟩, ⟨"assistant", reply⟩]) := by
  have hc : chat backend system_prompt store session_id user_message
      = (save_to_session
          (save_to_session store session_id "user" user_message)
          session_id "assistant" reply,
         Except.ok reply) := by
    unfold chat
    rw [h]
  have h2 := save_to_session_self
    (save_to_session store session_id "user" user_message) session_id "assistant" reply
  rw [save_to_session_self store session_id "user" user_message,
    lastN_append_lastN] at h2
  have hhist : get_session_history
      (chat backend system_prompt store session_id user_message).1 session_id
    = lastN 20 (get_session_history store session_id
        ++ [⟨"user", user_message⟩, ⟨"assistant", reply⟩]) := by
    rw [hc]
    show save_to_session
        (save_to_session store session_id "user" user_message)
        session_id "assistant" reply session_id = _
    rw [h2, List.append_assoc]
    rfl
  refine ⟨by rw [hc], hhist, fun hlen => ?_⟩
  rw [hhist, lastN_of_length_le]
  simp only [List.length_append, List.length_cons, List.length_nil,
    get_session_history] at hlen ⊢
  omega

/-- Witness for C4: a backend that replies `"hello"` on the empty store. -/
theorem chat_success_appends_witness :
    (chat (fun _ => Except.ok "hello") "sys" emptyStore "s1" "hi").2
        = Except.ok "hello"
      ∧ get_session_history
          (chat (fun _ => Except.ok "hello") "sys" emptyStore "s1" "hi").1 "s1"
        = lastN 20 (get_session_history emptyStore "s1"
            ++ [⟨"user", "hi"⟩, ⟨"assistant", "hello"⟩])
      ∧ ((get_session_history emptyStore "s1").length ≤ 18 →
          get_session_history
            (chat (fun _ => Except.ok "hello") "sys" emptyStore "s1" "hi").1 "s1"
          = get_session_history emptyStore "s1"
              ++ [⟨"user", "hi"⟩, ⟨"assistant", "hello"⟩]) :=
  chat_success_appends (fun _ => Except.ok "hello") "sys" emptyStore "s1" "hi"
    "hello" rfl


/-- A Presidio `RecognizerResult`: detected entity type, span offsets into the
text, and a confidence score (Python float, modelled as a rational). -/
structure RecognizerResult where
  entity_type : String
  start : Nat
  stop : Nat
  score : ℚ
deriving DecidableEq, Repr

/-- A Presidio `OperatorConfig`: replace with a fixed string, mask part of the
span with a character, or keep the span unchanged. -/
inductive OperatorConfig where
  | replace (new_value : String)
  | mask (masking_char : Char) (chars_to_mask : Int) (from_end : Bool)
  | keep
deriving DecidableEq, Repr

/-- The default anonymization policy of `apps/api/utils/pii_masker.py`. -/
def anonymizers : List (String × OperatorConfig) :=
  [("DEFAULT", OperatorConfig.replace "\x7b\x7bPII\x7d\x7d"),
   ("PHONE_NUMBER", OperatorConfig.replace "\x7b\x7bPHONE\x7d\x7d"),
   ("CREDIT_CARD", OperatorConfig.mask '*' (-4) true),
   ("EMAIL_ADDRESS", OperatorConfig.replace "\x7b\x7bEMAIL\x7d\x7d"),
   ("PERSON", OperatorConfig.replace "\x7b\x7bNAME\x7d\x7d"),
   ("IP_ADDRESS", OperatorConfig.replace "\x7b\x7bIP\x7d\x7d"),
   ("IBAN_CODE", OperatorConfig.replace "\x7b\x7bIBAN\x7d\x7d"),
   ("US_SSN", OperatorConfig.mask '*' (-2) true)]

/-- The per-entity operator map handed to the anonymizer: for each entity type
occurring in `results`, the configured operator, falling back to `DEFAULT`
(`operators[ent] = anonymizers.get(ent, anonymizers.get("DEFAULT"))`). -/
def buildOperators (anons : List (String × OperatorConfig))
    (results : List RecognizerResult) (ent : String) : Option OperatorConfig :=
  if results.any (fun r => r.entity_type == ent) then
    match anons.lookup ent with
    | some c => some c
    | none => anons.lookup "DEFAULT"
  else none

/-- The external detection capability (`self.analyzer.analyze`). -/
abbrev Analyzer := String → Except String (List RecognizerResult)

/-- The external rewrite capability (`self.anonymizer.anonymize`). -/
abbrev Anonymizer :=
  String → List RecognizerResult → (String → Option OperatorConfig) →
    Except String String

/-- `PIIMasker.mask` from `apps/api/utils/pii_masker.py`: return falsy text
unchanged; on detection failure return the text; with no detections return the
text; otherwise rewrite, returning the text if the rewrite raises. -/
def mask (analyzer : Analyzer) (anonymizer : Anonymizer)
    (anons : List (String × OperatorConfig)) (text : String) : String :=
  if text = "" then text
  else
    match analyzer text with
    | Except.error _ => text
    | Except.ok results =>
      if results = [] then text
      else
        match anonymizer text results (buildOperators anons results) with
        | Except.error _ => text
        | Except.ok out => out

namespace Lab4

/-- The default anonymization policy of `labs/templates/lab4/pii_masker.py`,
including the `keep` operator for `LOCATION`. -/
def anonymizers : List (String × OperatorConfig) :=
  [("DEFAULT", OperatorConfig.replace "\x7b\x7bPII\x7d\x7d"),
   ("PHONE_NUMBER", OperatorConfig.replace "\x7b\x7bPHONE\x7d\x7d"),
   ("CREDIT_CARD", OperatorConfig.mask '*' 4 true),
   ("EMAIL_ADDRESS", OperatorConfig.replace "\x7b\x7bEMAIL\x7d\x7d"),
   ("PERSON", OperatorConfig.replace "\x7b\x7bNAME\x7d\x7d"),
   ("IP_ADDRESS", OperatorConfig.replace "\x7b\x7bIP\x7d\x7d"),
   ("IBAN_CODE", OperatorConfig.replace "\x7b\x7bIBAN\x7d\x7d"),
   ("US_SSN", OperatorConfig.mask '*' 4 true),
   ("US_ITIN", OperatorConfig.mask '*' 4 true),
   ("US_PASSPORT", OperatorConfig.mask '*' 3 true),
   ("US_DRIVER_LICENSE", OperatorConfig.mask '*' 4 true),
   ("LOCATION", OperatorConfig.keep)]

/-- The fixed set of short administrative abbreviations treated as likely
location false positives. -/
def common_abbreviations : List String :=
  ["US", "UK", "CA", "NY", "TX", "FL", "IL", "PA", "OH", "MI"]

/-- `text[r.start:r.end]`, the substring covered by a detection. -/
def coveredText (text : String) (r : RecognizerResult) : String :=
  String.mk ((text.toList.drop r.start).take (r.stop - r.start))

/-- Python `str.upper()`, character by character. -/
def upper (s : String) : String :=
  String.mk (s.data.map Char.toUpper)

/-- The skip condition of the lab 4 false-positive filter: a `LOCATION`
detection whose covered substring upper-cases into the abbreviation set and
whose confidence is below 0.9. -/
def isSuppressed (text : String) (r : RecognizerResult) : Bool :=
  r.entity_type == "LOCATION"
    && common_abbreviations.contains (upper (coveredText text r))
    && decide (r.score < 9/10)

/-- The lab 4 filtering pass: drop suppressed location detections. -/
def filterResults (text : String) (results : List RecognizerResult) :
    List RecognizerResult :=
  results.filter (fun r => !(isSuppressed text r))

/-- `PIIMasker.mask` from `labs/templates/lab4/pii_masker.py`: as the apps
variant, but detections pass through the false-positive filter first. -/
def mask (analyzer : Analyzer) (anonymizer : Anonymizer)
    (anons : List (String × OperatorConfig)) (text : String) : String :=
  if text = "" then text
  else
    match analyzer text with
    | Except.error _ => text
    | Except.ok results =>
      if results = [] then text
      else
        let filtered := filterResults text results
        if filtered = [] then text
        else
          match anonymizer text filtered (buildOperators anons filtered) with
          | Except.error _ => text
          | Except.ok out => out

end Lab4

/-- **C6.** `mask` fails open: if the detection capability raises, or if the
rewrite capability raises, the returned text is the original input unchanged
and the failure never propagates (policy resolution itself is a total lookup
and cannot raise). -/
theorem mask_fail_open (analyzer : Analyzer) (anonymizer : Anonymizer)
    (anons : List (String × OperatorConfig)) (text e : String) :
    (analyzer text = Except.error e →
      mask analyzer anonymizer anons text = text)
    ∧ (∀ results, analyzer text = Except.ok results →
        anonymizer text results (buildOperators anons results) = Except.error e →
        mask analyzer anonymizer anons text = text) := by
  constructor
  · intro h
    unfold mask
    split
    · rfl
    · rw [h]
  · intro results h1 h2
    unfold mask
    split
    · rfl
    · simp only [h1]
      split
      · rfl
      · simp only [h2]

/-- Witness for C6: a raising detector, and a detector paired with a raising
rewriter; both leave the input untouched. -/
theorem mask_fail_open_witness :
    mask (fun _ => Except.error "engine down")
        (fun _ _ _ => Except.error "rewrite failed") anonymizers "abc" = "abc"
    ∧ mask (fun _ => Except.ok [⟨"PERSON", 0, 3, 1⟩])
        (fun _ _ _ => Except.error "rewrite failed") anonymizers "abc" = "abc" :=
  ⟨(mask_fail_open (fun _ => Except.error "engine down")
      (fun _ _ _ => Except.error "rewrite failed") anonymizers "abc"
      "engine down").1 rfl,
   (mask_fail_open (fun _ => Except.ok [⟨"PERSON", 0, 3, 1⟩])
      (fun _ _ _ => Except.error "rewrite failed") anonymizers "abc"
      "rewrite failed").2 [⟨"PERSON", 0, 3, 1⟩] rfl rfl⟩

/-- **C9.** For a fixed configuration, `mask` is idempotent on already-redacted
output: if the second detection pass finds no entities in `mask`'s output, a
second `mask` returns that output unchanged. -/
theorem mask_idempotent (analyzer : Analyzer) (anonymizer : Anonymizer)
    (anons : List (String × OperatorConfig)) (text : String)
    (h : analyzer (mask analyzer anonymizer anons text) = Except.ok []) :
    mask analyzer anonymizer anons (mask analyzer anonymizer anons text)
      = mask analyzer anonymizer anons text := by
  have hgen : ∀ m : String, analyzer m = Except.ok [] →
      mask analyzer anonymizer anons m = m := by
    intro m hm
    unfold mask
    split
    · rfl
    · rw [hm]
      simp
  exact hgen _ h

/-- Witness for C9: a detector that flags `"secret"` once and finds nothing in
the rewritten output. -/
theorem mask_idempotent_witness :
    mask (fun t => if t = "secret" then Except.ok [⟨"PERSON", 0, 6, 1⟩] else Except.ok [])
        (fun _ _ _ => Except.ok "\x7b\x7bNAME\x7d\x7d") anonymizers
        (mask (fun t => if t = "secret" then Except.ok [⟨"PERSON", 0, 6, 1⟩] else Except.ok [])
          (fun _ _ _ => Except.ok "\x7b\x7bNAME\x7d\x7d") anonymizers "secret")
      = mask (fun t => if t = "secret" then Except.ok [⟨"PERSON", 0, 6, 1⟩] else Except.ok [])
          (fun _ _ _ => Except.ok "\x7b\x7bNAME\x7d\x7d") anonymizers "secret" :=
  mask_idempotent
    (fun t => if t = "secret" then Except.ok [⟨"PERSON", 0, 6, 1⟩] else Except.ok [])
    (fun _ _ _ => Except.ok "\x7b\x7bNAME\x7d\x7d") anonymizers "secret" rfl

/-- **C10.** Both maskers return the empty (falsy) input unchanged for every
detector (detection is never consulted), and return the input unchanged for
every rewriter when detection yields an empty entity list (the rewriter is
never consulted). -/
theorem mask_short_circuits :
    (∀ (analyzer : Analyzer) (anonymizer : Anonymizer)
        (anons : List (String × OperatorConfig)),
      mask analyzer anonymizer anons "" = "")
    ∧ (∀ (analyzer : Analyzer) (anonymizer : Anonymizer)
        (anons : List (String × OperatorConfig)) (text : String),
        analyzer text = Except.ok [] →
        mask analyzer anonymizer anons text = text)
    ∧ (∀ (analyzer : Analyzer) (anonymizer : Anonymizer)
        (anons : List (String × OperatorConfig)),
      Lab4.mask analyzer anonymizer anons "" = "")
    ∧ (∀ (analyzer : Analyzer) (anonymizer : Anonymizer)
        (anons : List (String × OperatorConfig)) (text : String),
        analyzer text = Except.ok [] →
        Lab4.mask analyzer anonymizer anons text = text) := by
  refine ⟨fun a r anons => rfl, fun a r anons text h => ?_,
    fun a r anons => rfl, fun a r anons text h => ?_⟩
  · unfold mask
    split
    · rfl
    · rw [h]
      simp
  · unfold Lab4.mask
    split
    · rfl
    · rw [h]
      simp

/-- Witness for C10: the empty input, and a text on which a concrete detector
finds nothing, through both maskers. -/
theorem mask_short_circuits_witness :
    mask (fun _ => Except.ok [⟨"PERSON", 0, 3, 1⟩])
        (fun _ _ _ => Except.ok "XX") anonymizers "" = ""
    ∧ mask (fun _ => Except.ok []) (fun _ _ _ => Except.ok "XX") anonymizers
        "plain text" = "plain text"
    ∧ Lab4.mask (fun _ => Except.ok [⟨"PERSON", 0, 3, 1⟩])
        (fun _ _ _ => Except.ok "XX") Lab4.anonymizers "" = ""
    ∧ Lab4.mask (fun _ => Except.ok []) (fun _ _ _ => Except.ok "XX")
        Lab4.anonymizers "plain text" = "plain text" :=
  ⟨mask_short_circuits.1 _ _ _,
   mask_short_circuits.2.1 _ _ _ _ rfl,
   mask_short_circuits.2.2.1 _ _ _,
   mask_short_circuits.2.2.2 _ _ _ _ rfl⟩

/-- **C7.** In the lab 4 pipeline, a `LOCATION` detection whose covered
substring upper-cases into the fixed abbreviation set is suppressed when its
confidence is below 0.9; at confidence at least 0.9 it survives the filter and
its operator resolves per policy (the `LOCATION` policy, `keep`). -/
theorem location_abbreviation_cutoff (text : String)
    (results : List RecognizerResult) (r : RecognizerResult)
    (h1 : r.entity_type = "LOCATION")
    (h2 : Lab4.common_abbreviations.contains (Lab4.upper (Lab4.coveredText text r)) = true)
    (hr : r ∈ results) :
    (r.score < 9/10 → r ∉ Lab4.filterResults text results)
    ∧ (9/10 ≤ r.score →
        r ∈ Lab4.filterResults text results
        ∧ buildOperators Lab4.anonymizers (Lab4.filterResults text results)
            "LOCATION" = some OperatorConfig.keep) := by
  have hb1 : (r.entity_type == "LOCATION") = true := beq_iff_eq.mpr h1
  constructor
  · intro hlt hmem
    rw [Lab4.filterResults, List.mem_filter] at hmem
    have hsupp : Lab4.isSuppressed text r = true := by
      rw [Lab4.isSuppressed, hb1, h2, decide_eq_true hlt]
      rfl
    rw [hsupp] at hmem
    simp at hmem
  · intro hge
    have hsupp : Lab4.isSuppressed text r = false := by
      rw [Lab4.isSuppressed, hb1, h2, decide_eq_false (not_lt.mpr hge)]
      rfl
    have hmem : r ∈ Lab4.filterResults text results := by
      rw [Lab4.filterResults, List.mem_filter]
      exact ⟨hr, by rw [hsupp]; rfl⟩
    refine ⟨hmem, ?_⟩
    rw [buildOperators, if_pos]
    · rfl
    · rw [List.any_eq_true]
      exact ⟨r, hmem, hb1⟩

/-- Witness for C7: the token `"US"` detected as a location at confidence 0.85
(suppressed) and at 0.95 (retained, operator `keep`). -/
theorem location_abbreviation_cutoff_witness :
    ((⟨"LOCATION", 14, 16, 17/20⟩ : RecognizerResult) ∉
        Lab4.filterResults "I live in the US"
          [⟨"LOCATION", 14, 16, 17/20⟩])
    ∧ ((⟨"LOCATION", 14, 16, 19/20⟩ : RecognizerResult) ∈
          Lab4.filterResults "I live in the US"
            [⟨"LOCATION", 14, 16, 19/20⟩]
        ∧ buildOperators Lab4.anonymizers
            (Lab4.filterResults "I live in the US"
              [⟨"LOCATION", 14, 16, 19/20⟩])
            "LOCATION" = some OperatorConfig.keep) :=
  ⟨(location_abbreviation_cutoff "I live in the US"
      [⟨"LOCATION", 14, 16, 17/20⟩] ⟨"LOCATION", 14, 16, 17/20⟩
      rfl (by decide) (List.mem_singleton.mpr rfl)).1 (by norm_num),
   (location_abbreviation_cutoff "I live in the US"
      [⟨"LOCATION", 14, 16, 19/20⟩] ⟨"LOCATION", 14, 16, 19/20⟩
      rfl (by decide) (List.mem_singleton.mpr rfl)).2 (by norm_num)⟩

/-- An HTTP error response (`HTTPException`): status code and detail text. -/
structure HTTPError where
  status : Nat
  detail : String
deriving DecidableEq, Repr

/-- Python `str.strip()`: remove leading and trailing whitespace. -/
def strip (s : String) : String :=
  String.mk
    (((s.data.dropWhile Char.isWhitespace).reverse.dropWhile
      Char.isWhitespace).reverse)

/-- `chat_endpoint` from `apps/api/routers/inference.py`: reject input that is
empty after stripping with a 400, otherwise run `chat`; any exception escaping
`chat` is caught and surfaced as the one fixed 500 response. -/
def chat_endpoint (backend : Backend) (system_prompt : String) (store : Store)
    (session_id user_message : String) : Store × Except HTTPError String :=
  if (strip user_message).length = 0 then
    (store, Except.error ⟨400, "User message cannot be empty"⟩)
  else
    match chat backend system_prompt store session_id user_message with
    | (store1, Except.ok reply) => (store1, Except.ok reply)
    | (store1, Except.error _) =>
        (store1,
         Except.error ⟨500, "Internal server error: Failed to process chat request"⟩)

/-- **C8 counterexample.** Two backend failures with different causes — a
connection refusal (the taxonomy's Unavailable) and a credential rejection
(Unauthorized) — surface as the identical fixed 500 response: the code
classifies nothing into the Unavailable/Unauthorized/ModelNotFound/
RateLimited/TimedOut/Unknown taxonomy. -/
theorem error_taxonomy_counterexample :
    (chat_endpoint (fun _ => Except.error "connection refused") "sys"
        emptyStore "s1" "hi").2
        = Except.error ⟨500, "Internal server error: Failed to process chat request"⟩
    ∧ (chat_endpoint (fun _ => Except.error "401 unauthorized") "sys"
        emptyStore "s1" "hi").2
        = Except.error ⟨500, "Internal server error: Failed to process chat request"⟩
    ∧ (chat_endpoint (fun _ => Except.error "connection refused") "sys"
        emptyStore "s1" "hi").2
        = (chat_endpoint (fun _ => Except.error "401 unauthorized") "sys"
            emptyStore "s1" "hi").2 := by
  refine ⟨?_, ?_, ?_⟩ <;> rfl

/-- **C8 amended.** Every backend dispatch failure is caught and surfaced to
the caller as the single fixed internal-error response (status 500 with a
usable fixed detail string), never crashing and never silently swallowed, and
the store is left unchanged; no taxonomy classification takes place (provider
hints are only logged). -/
theorem error_surfaced_uniformly (backend : Backend) (system_prompt : String)
    (store : Store) (session_id user_message e : String)
    (hmsg : (strip user_message).length ≠ 0)
    (h : backend (build_message_chain system_prompt store session_id user_message)
      = Except.error e) :
    chat_endpoint backend system_prompt store session_id user_message
      = (store,
         Except.error ⟨500, "Internal server error: Failed to process chat request"⟩) := by
  have hc : chat backend system_prompt store session_id user_message
      = (store, Except.error e) := by
    unfold chat
    rw [h]
  unfold chat_endpoint
  rw [if_neg hmsg, hc]

/-- Witness for the amended C8 at a concrete failing backend. -/
theorem error_surfaced_uniformly_witness :
    chat_endpoint (fun _ => Except.error "connection refused") "sys"
        emptyStore "s1" "hi"
      = (emptyStore,
         Except.error ⟨500, "Internal server error: Failed to process chat request"⟩) :=
  error_surfaced_uniformly (fun _ => Except.error "connection refused") "sys"
    emptyStore "s1" "hi" "connection refused" (by decide) rfl

/-- **C5 counterexample.** `chat` never invokes the redaction pipeline: with
the default policy and a detector that flags the email span in
`"contact a@b.com"` (so `mask` rewrites the text), the turn still dispatches
the original text as the final chain message and records the original text in
the session history, not the mask output. -/
theorem redaction_not_applied_counterexample :
    mask (fun _ => Except.ok [⟨"EMAIL_ADDRESS", 8, 15, 1⟩])
        (fun _ _ _ => Except.ok "contact \x7b\x7bEMAIL\x7d\x7d") anonymizers
        "contact a@b.com"
      ≠ "contact a@b.com"
    ∧ get_session_history
        ((chat (fun _ => Except.ok "hello") "sys" emptyStore "s1"
          "contact a@b.com").1) "s1"
        = [⟨"user", "contact a@b.com"⟩, ⟨"assistant", "hello"⟩]
    ∧ (build_message_chain "sys" emptyStore "s1" "contact a@b.com").getLast?
        = some (ChainMsg.human "contact a@b.com") := by
  refine ⟨by decide, by decide, by decide⟩

/-- **C5 amended.** For every turn, the user message dispatched to the backend
(the chain's last element) and the user message recorded in session history
are the original input text unchanged: `mask` exists as a standalone utility
but is never applied during turn processing. -/
theorem original_text_dispatched_and_recorded (backend : Backend)
    (system_prompt : String) (store : Store)
    (session_id user_message reply : String)
    (h : backend (build_message_chain system_prompt store session_id user_message)
      = Except.ok reply) :
    (build_message_chain system_prompt store session_id user_message).getLast?
        = some (ChainMsg.human user_message)
    ∧ get_session_history
        (chat backend system_prompt store session_id user_message).1 session_id
      = lastN 20 (get_session_history store session_id
          ++ [⟨"user", user_message⟩, ⟨"assistant", reply⟩]) := by
  constructor
  · unfold build_message_chain
    rw [List.getLast?_concat]
  · have hc : chat backend system_prompt store session_id user_message
        = (save_to_session
            (save_to_session store session_id "user" user_message)
            session_id "assistant" reply,
           Except.ok reply) := by
      unfold chat
      rw [h]
    have h2 := save_to_session_self
      (save_to_session store session_id "user" user_message)
      session_id "assistant" reply
    rw [save_to_session_self store session_id "user" user_message,
      lastN_append_lastN] at h2
    rw [hc]
    show save_to_session
        (save_to_session store session_id "user" user_message)
        session_id "assistant" reply session_id = _
    rw [h2, List.append_assoc]
    rfl

/-- Witness for the amended C5 at a concrete succeeding backend. -/
theorem original_text_dispatched_and_recorded_witness :
    (build_message_chain "sys" emptyStore "s1" "contact a@b.com").getLast?
        = some (ChainMsg.human "contact a@b.com")
    ∧ get_session_history
        (chat (fun _ => Except.ok "hello") "sys" emptyStore "s1"
          "contact a@b.com").1 "s1"
      = lastN 20 (get_session_history emptyStore "s1"
          ++ [⟨"user", "contact a@b.com"⟩, ⟨"assistant", "hello"⟩]) :=
  original_text_dispatched_and_recorded (fun _ => Except.ok "hello") "sys"
    emptyStore "s1" "contact a@b.com" "hello" rfl
